import Mathlib

/-!
Verification development for the kubectl regex-match plugin
(pkg/cmd/regex.go, the variant with confirmation and all-namespaces
support, given here as src/unnamed/part_000).

The repository's core is `runCmd` together with `BuildResourceInterface`.
External collaborators (the Kubernetes client configuration, the dynamic
client, the REST mapper, the listing and delete calls, the regex engine,
and the confirmation input stream) are modelled as an explicit
environment of oracles; the control flow, string rendering, scope
decisions and counters are translated directly from the Go source.
-/

/-- One resource instance: `(namespace, name)`, as extracted from a listed
item by `item.GetNamespace()` and `item.GetName()`. The namespace is the
empty string for cluster-scoped resources (Go zero value). -/
structure ResourceRef where
  ns : String
  name : String
deriving DecidableEq, Repr

/-- A scoped accessor produced by the dynamic client: either
`dynClient.Resource(gvr)` (no namespace applied; used both for
cluster-scoped types and for all-namespaces listing) or
`dynClient.Resource(gvr).Namespace(ns)`. -/
inductive Accessor where
  | unscoped (resource : String)
  | namespaced (resource : String) (ns : String)
deriving DecidableEq, Repr

/-- Observable effects of one invocation, in order of occurrence. Each
constructor that carries a string carries the exact rendered text of the
corresponding `fmt.Fprintf` / `fmt.Fprintln` call (stream noted per
constructor). -/
inductive Event where
  /-- stdout (`fmt.Println`) in the get branch: one matched name. -/
  | printName (s : String)
  /-- streams.Out: the "The following %s match your regex:" header. -/
  | headerLine (s : String)
  /-- streams.Out: one "  ns/name" (or "  name") presentation line. -/
  | presentItem (s : String)
  /-- streams.Out: the "No resources matched your pattern." line. -/
  | noMatchMsg
  /-- streams.Out: the "Delete all %d resources? [y/N]: " prompt. -/
  | confirmAsk (s : String)
  /-- `fmt.Fscanln(streams.In, &confirm)`: one read from the input stream. -/
  | readIn
  /-- streams.Out: the "Aborted." line. -/
  | abortedMsg
  /-- one `targetRI.Delete(ctx, name, ...)` call issued against the API. -/
  | deleteCall (target : Accessor) (nm : String)
  /-- streams.Out: one "Deleted ns/name" line. -/
  | deleteOkMsg (s : String)
  /-- streams.ErrOut: one "Failed to delete ns/name: err" line. -/
  | deleteFailMsg (s : String)
  /-- streams.Out: the final "%d deleted, %d failed." summary line. -/
  | summaryMsg (s : String)
deriving DecidableEq, Repr

/-- How the invocation ends: a Go `panic` (process crash), a non-nil
error return (the shell exits non-zero and prints the error), or a nil
return (exit status zero). -/
inductive RunOutcome where
  | crashed (msg : String)
  | errored (msg : String)
  | ok
deriving DecidableEq, Repr

/-- Result of one modelled invocation: the event trace, the final
`deleted` and `failed` counters, and how the run ended. -/
structure RunResult where
  events : List Event
  deleted : Nat
  failed : Nat
  outcome : RunOutcome
deriving DecidableEq, Repr

/-- The external collaborators consumed by `runCmd`, as oracles. The
client-building calls appear twice because the source performs them twice
(once inside `BuildResourceInterface`, once in the rebuild before the
delete loop); the two executions are independent external calls. -/
structure Env where
  /-- `regexp.Compile`: `none` on a compile error, otherwise the compiled
  matcher `re.MatchString`. -/
  compile : String → Option (String → Bool)
  /-- `kubeFlags.ToRESTConfig()` inside `BuildResourceInterface`. -/
  toRESTConfig : Except String Unit
  /-- `dynamic.NewForConfig(restCfg)` inside `BuildResourceInterface`. -/
  newForConfig : Except String Unit
  /-- `kubeFlags.ToRESTMapper()` inside `BuildResourceInterface`. -/
  toRESTMapper : Except String Unit
  /-- `mapper.ResourceFor(...)`: resolves a resource-type name to the
  resolved resource (the `gvkResource.Resource` string). -/
  resourceFor : String → Except String String
  /-- `kubeFlags.ToRawKubeConfigLoader().Namespace()`: ambient namespace. -/
  namespaceOf : Except String String
  /-- the `--all-namespaces` flag. -/
  allNamespaces : Bool
  /-- `ri.List(...)`: the items visible through an accessor, as
  `(namespace, name)` pairs in listing order. -/
  list : Accessor → Except String (List ResourceRef)
  /-- `kubeFlags.ToRESTConfig()` in the rebuild step. -/
  toRESTConfig2 : Except String Unit
  /-- `dynamic.NewForConfig(restCfg)` in the rebuild step. -/
  newForConfig2 : Except String Unit
  /-- `kubeFlags.ToRESTMapper()` in the rebuild step. -/
  toRESTMapper2 : Except String Unit
  /-- `mapper.ResourceFor(...)` in the rebuild step. -/
  resourceFor2 : String → Except String String
  /-- `targetRI.Delete(...)`: per-call result of one delete. -/
  deleteResult : Accessor → String → Except String Unit
  /-- what `fmt.Fscanln(streams.In, &confirm)` stores into `confirm`. -/
  confirmInput : String
  /-- the `--yes` flag (`autoYes`): skip the confirmation prompt. -/
  autoYes : Bool

/-- `BuildResourceInterface` (part_000 lines 216-253): build the client,
resolve the resource type, read the ambient namespace, and decide the
scope: `nodes`/`namespaces` or `--all-namespaces` get the un-namespaced
accessor, everything else is scoped to the ambient namespace. -/
def BuildResourceInterface (env : Env) (resource : String) : Except String Accessor :=
  match env.toRESTConfig with
  | .error e => .error e
  | .ok _ =>
  match env.newForConfig with
  | .error e => .error e
  | .ok _ =>
  match env.toRESTMapper with
  | .error e => .error e
  | .ok _ =>
  match env.resourceFor resource with
  | .error e => .error ("unknown resource " ++ resource ++ ": " ++ e)
  | .ok gvkResource =>
  match env.namespaceOf with
  | .error e => .error e
  | .ok ns =>
    if gvkResource = "nodes" ∨ gvkResource = "namespaces" ∨ env.allNamespaces = true then
      .ok (Accessor.unscoped gvkResource)
    else
      .ok (Accessor.namespaced gvkResource ns)

/-- The matched-set loop (part_000 lines 128-136): start from the empty
slice and append each listed item whose name the compiled pattern
matches. -/
def selectMatches (re : String → Bool) (items : List ResourceRef) : List ResourceRef :=
  items.foldl (fun acc item => if re item.name then acc ++ [item] else acc) []

/-- One presentation line (part_000 lines 146-150): "  ns/name" when the
namespace is non-empty, else just "  name". -/
def presentLine (m : ResourceRef) : String :=
  if m.ns ≠ "" then "  " ++ m.ns ++ "/" ++ m.name else "  " ++ m.name

/-- The presentation step (part_000 lines 144-151): header line followed
by one line per matched item. -/
def presentEvents (resource : String) (matched : List ResourceRef) : List Event :=
  Event.headerLine ("The following " ++ resource ++ " match your regex:") ::
    matched.map (fun m => Event.presentItem (presentLine m))

/-- The confirmation prompt text (part_000 line 155). -/
def promptLine (n : Nat) : String :=
  "\nDelete all " ++ toString n ++ " resources? [y/N]: "

/-- `strings.ToLower` (part_000 line 158), modelled at the character-data
level (agrees with Go on the ASCII inputs the confirmation gate
compares against). -/
def goToLower (s : String) : String :=
  ⟨s.data.map Char.toLower⟩

/-- The per-item success line (part_000 line 202): rendered with
`"Deleted %s/%s"` unconditionally. -/
def deletedLine (m : ResourceRef) : String :=
  "Deleted " ++ (m.ns ++ ("/" ++ m.name))

/-- The per-item failure line (part_000 line 199): rendered with
`"Failed to delete %s/%s: %v"` unconditionally. -/
def failedLine (m : ResourceRef) (e : String) : String :=
  "Failed to delete " ++ (m.ns ++ ("/" ++ m.name ++ (": " ++ e)))

/-- The final summary line (part_000 line 207). -/
def summaryLine (deleted failed : Nat) : String :=
  "\n✅ " ++ toString deleted ++ " deleted, ❌ " ++ toString failed ++ " failed.\n"

/-- Per-item accessor re-resolution (part_000 lines 188-196): a matched
item with a non-empty namespace is addressed through
`baseRI.Namespace(m.NS)`, otherwise through the base (un-namespaced)
accessor. -/
def targetOf (gvr : String) (m : ResourceRef) : Accessor :=
  if m.ns ≠ "" then Accessor.namespaced gvr m.ns else Accessor.unscoped gvr

/-- Whether the external delete call for one matched item fails. -/
def deleteFails (env : Env) (gvr : String) (m : ResourceRef) : Bool :=
  match env.deleteResult (targetOf gvr m) m.name with
  | .error _ => true
  | .ok _ => false

/-- The report line emitted for one matched item (part_000 lines
198-204): a "Deleted ns/name" line on success, a
"Failed to delete ns/name: err" line on the error stream on failure. -/
def reportEvent (env : Env) (gvr : String) (m : ResourceRef) : Event :=
  match env.deleteResult (targetOf gvr m) m.name with
  | .error e => Event.deleteFailMsg (failedLine m e)
  | .ok _ => Event.deleteOkMsg (deletedLine m)

/-- The delete loop (part_000 lines 182-205): for each matched item in
order, re-scope, issue one delete call, report, and bump the matching
counter; a failure never stops the loop. Returns
(events, deleted, failed). -/
def deletePhase (env : Env) (gvr : String) : List ResourceRef → List Event × Nat × Nat
  | [] => ([], 0, 0)
  | m :: rest =>
    let step : List Event × Nat × Nat :=
      match env.deleteResult (targetOf gvr m) m.name with
      | .error e =>
        ([Event.deleteCall (targetOf gvr m) m.name,
          Event.deleteFailMsg (failedLine m e)], 0, 1)
      | .ok _ =>
        ([Event.deleteCall (targetOf gvr m) m.name,
          Event.deleteOkMsg (deletedLine m)], 1, 0)
    let tail := deletePhase env gvr rest
    (step.1 ++ tail.1, step.2.1 + tail.2.1, step.2.2 + tail.2.2)

/-- The rebuild step that follows a confirmed (or unprompted) delete
(part_000 lines 164-180): rebuild the REST config, the dynamic client and
the mapper, and re-resolve the resource type; any failure is returned as
the command's error. -/
def rebuild (env : Env) (resource : String) : Except String String :=
  match env.toRESTConfig2 with
  | .error e => .error e
  | .ok _ =>
  match env.newForConfig2 with
  | .error e => .error e
  | .ok _ =>
  match env.toRESTMapper2 with
  | .error e => .error e
  | .ok _ =>
  match env.resourceFor2 resource with
  | .error e => .error ("unknown resource " ++ resource ++ ": " ++ e)
  | .ok gvr => .ok gvr

/-- The part of the delete branch that runs once confirmation has been
given or skipped (part_000 lines 164-207): rebuild, delete loop,
summary. -/
def afterConfirm (env : Env) (resource : String) (matched : List ResourceRef) : RunResult :=
  match rebuild env resource with
  | .error e => ⟨[], 0, 0, RunOutcome.errored e⟩
  | .ok gvr =>
    let r := deletePhase env gvr matched
    ⟨r.1 ++ [Event.summaryMsg (summaryLine r.2.1 r.2.2)], r.2.1, r.2.2, RunOutcome.ok⟩

/-- The delete branch of `runCmd` given the matched set (part_000 lines
138-207): empty check, presentation, confirmation gate (skipped under
`--yes`), then `afterConfirm`. -/
def deleteFlow (env : Env) (resource : String) (matched : List ResourceRef) : RunResult :=
  if matched = [] then
    ⟨[Event.noMatchMsg], 0, 0, RunOutcome.ok⟩
  else
    let pres := presentEvents resource matched
    if env.autoYes = true then
      let r := afterConfirm env resource matched
      ⟨pres ++ r.events, r.deleted, r.failed, r.outcome⟩
    else if goToLower env.confirmInput ≠ "y" then
      ⟨pres ++ [Event.confirmAsk (promptLine matched.length), Event.readIn,
        Event.abortedMsg], 0, 0, RunOutcome.ok⟩
    else
      let r := afterConfirm env resource matched
      ⟨pres ++ [Event.confirmAsk (promptLine matched.length), Event.readIn] ++ r.events,
        r.deleted, r.failed, r.outcome⟩

/-- `runCmd` (part_000 lines 90-214). The positional arguments are the
resource type and the optional pattern (`pattern` stays the Go zero value
"" when absent). An uncompilable pattern panics (line 100); a build or
listing failure is returned as an error; the get branch prints matching
names; the delete branch runs `deleteFlow`. -/
def runCmd (env : Env) (resource : String) (patternArg : Option String)
    (operation : String) : RunResult :=
  let pat := patternArg.getD ""
  match env.compile pat with
  | none => ⟨[], 0, 0, RunOutcome.crashed pat⟩
  | some re =>
    match BuildResourceInterface env resource with
    | .error e => ⟨[], 0, 0, RunOutcome.errored e⟩
    | .ok ri =>
      match env.list ri with
      | .error e => ⟨[], 0, 0, RunOutcome.errored e⟩
      | .ok items =>
        if operation = "get" then
          ⟨(selectMatches re items).map (fun m => Event.printName m.name), 0, 0,
            RunOutcome.ok⟩
        else if operation = "delete" then
          deleteFlow env resource (selectMatches re items)
        else
          ⟨[], 0, 0, RunOutcome.errored ("unknown operation " ++ operation)⟩

/-- The delete calls issued during a trace, in order. -/
def deleteCalls (evs : List Event) : List (Accessor × String) :=
  evs.filterMap (fun e =>
    match e with
    | Event.deleteCall t n => some (t, n)
    | _ => none)

/-- The per-item report lines (success or failure) in a trace, in order. -/
def reportsOf (evs : List Event) : List Event :=
  evs.filterMap (fun e =>
    match e with
    | Event.deleteOkMsg s => some (Event.deleteOkMsg s)
    | Event.deleteFailMsg s => some (Event.deleteFailMsg s)
    | _ => none)

/-- How many times the trace reads from the input stream. -/
def readCount (evs : List Event) : Nat :=
  (evs.filter (fun e =>
    match e with
    | Event.readIn => true
    | _ => false)).length

/-- How many confirmation prompts the trace writes. -/
def askCount (evs : List Event) : Nat :=
  (evs.filter (fun e =>
    match e with
    | Event.confirmAsk _ => true
    | _ => false)).length

/-- The summary lines in a trace. -/
def summariesOf (evs : List Event) : List Event :=
  evs.filterMap (fun e =>
    match e with
    | Event.summaryMsg s => some (Event.summaryMsg s)
    | _ => none)

/-- Modelled from the spec: the behaviour of the external Go regex engine
on the empty pattern — the engine itself is an external collaborator, and
the spec states that an empty pattern is satisfied everywhere, hence
matches every name. -/
def emptyPatternMatchString (_ : String) : Bool :=
  true

/-- A concrete listing for witnesses: two items in namespace "foo" and
one cluster-scoped item. -/
def testItems : List ResourceRef :=
  [⟨"foo", "app-a"⟩, ⟨"foo", "app-b"⟩, ⟨"", "web-1"⟩]

/-- The matcher the test environment returns for every compilable
pattern: the empty pattern matches everything, otherwise the two "app"
names match. -/
def testMatch (p nm : String) : Bool :=
  (p = "") || ((p = "app") && (nm = "app-a" || nm = "app-b"))

/-- A concrete environment for witnesses: every client call succeeds,
the pattern "[" fails to compile and every other pattern compiles to
`testMatch`, the type mapper echoes its input, the delete of "app-b"
fails and every other delete succeeds, the confirmation input is "n",
and prompting is not skipped. Field order follows `Env`. -/
def testEnv : Env :=
  ⟨fun p => if p = "[" then none else some (testMatch p),
   .ok (), .ok (), .ok (),
   fun r => .ok r,
   .ok "foo",
   false,
   fun _ => .ok testItems,
   .ok (), .ok (), .ok (),
   fun r => .ok r,
   fun _ nm => if nm = "app-b" then .error "boom" else .ok (),
   "n",
   false⟩

/-- `testEnv` with confirmation input "Y". -/
def testEnvYes : Env :=
  ⟨testEnv.compile, .ok (), .ok (), .ok (), testEnv.resourceFor, .ok "foo",
   false, testEnv.list, .ok (), .ok (), .ok (), testEnv.resourceFor2,
   testEnv.deleteResult, "Y", false⟩

/-- `testEnv` with the confirmation prompt skipped and the rebuild of the
REST config failing. -/
def testEnvRebuildFail : Env :=
  ⟨testEnv.compile, .ok (), .ok (), .ok (), testEnv.resourceFor, .ok "foo",
   false, testEnv.list, .error "rebuild-down", .ok (), .ok (),
   testEnv.resourceFor2, testEnv.deleteResult, "y", false⟩

/-- `testEnv` resolving every type name to "nodes". -/
def testEnvNodes : Env :=
  ⟨testEnv.compile, .ok (), .ok (), .ok (), fun _ => .ok "nodes", .ok "foo",
   true, testEnv.list, .ok (), .ok (), .ok (), testEnv.resourceFor2,
   testEnv.deleteResult, "n", false⟩

/-! ## Helper lemmas -/

theorem selectMatches_go (re : String → Bool) (items : List ResourceRef)
    (acc : List ResourceRef) :
    items.foldl (fun a item => if re item.name then a ++ [item] else a) acc
      = acc ++ items.filter (fun r => re r.name) := by
  induction items generalizing acc with
  | nil => simp
  | cons x xs ih =>
    simp only [List.foldl_cons, List.filter_cons]
    cases h : re x.name with
    | true => simp [h, ih]
    | false => simp [h, ih]

/-- The matched-set loop is exactly a filter of the listing on the name. -/
theorem selectMatches_eq_filter (re : String → Bool) (items : List ResourceRef) :
    selectMatches re items = items.filter (fun r => re r.name) := by
  simpa using selectMatches_go re items []

theorem deleteCalls_append (a b : List Event) :
    deleteCalls (a ++ b) = deleteCalls a ++ deleteCalls b := by
  simp [deleteCalls, List.filterMap_append]

theorem reportsOf_append (a b : List Event) :
    reportsOf (a ++ b) = reportsOf a ++ reportsOf b := by
  simp [reportsOf, List.filterMap_append]

theorem summariesOf_append (a b : List Event) :
    summariesOf (a ++ b) = summariesOf a ++ summariesOf b := by
  simp [summariesOf, List.filterMap_append]

theorem readCount_append (a b : List Event) :
    readCount (a ++ b) = readCount a + readCount b := by
  simp [readCount, List.filter_append]

theorem askCount_append (a b : List Event) :
    askCount (a ++ b) = askCount a + askCount b := by
  simp [askCount, List.filter_append]

theorem deletePhase_failed (env : Env) (gvr : String) (l : List ResourceRef) :
    (deletePhase env gvr l).2.2 = (l.filter (deleteFails env gvr)).length := by
  induction l with
  | nil => rfl
  | cons m rest ih =>
    cases h : env.deleteResult (targetOf gvr m) m.name with
    | error e => simp [deletePhase, deleteFails, h, List.filter_cons, ih]; omega
    | ok u => simp [deletePhase, deleteFails, h, List.filter_cons, ih]

theorem deletePhase_total (env : Env) (gvr : String) (l : List ResourceRef) :
    (deletePhase env gvr l).2.1 + (deletePhase env gvr l).2.2 = l.length := by
  induction l with
  | nil => rfl
  | cons m rest ih =>
    cases h : env.deleteResult (targetOf gvr m) m.name with
    | error e => simp [deletePhase, h]; omega
    | ok u => simp [deletePhase, h]; omega

theorem deletePhase_deleted (env : Env) (gvr : String) (l : List ResourceRef) :
    (deletePhase env gvr l).2.1 = l.length - (l.filter (deleteFails env gvr)).length := by
  have h1 := deletePhase_total env gvr l
  have h2 := deletePhase_failed env gvr l
  omega

theorem deletePhase_calls (env : Env) (gvr : String) (l : List ResourceRef) :
    deleteCalls (deletePhase env gvr l).1 = l.map (fun m => (targetOf gvr m, m.name)) := by
  induction l with
  | nil => rfl
  | cons m rest ih =>
    cases h : env.deleteResult (targetOf gvr m) m.name with
    | error e =>
      simp only [deletePhase, h, List.map_cons]
      rw [deleteCalls_append, ih]
      simp [deleteCalls, List.filterMap_cons]
    | ok u =>
      simp only [deletePhase, h, List.map_cons]
      rw [deleteCalls_append, ih]
      simp [deleteCalls, List.filterMap_cons]

theorem deletePhase_reports (env : Env) (gvr : String) (l : List ResourceRef) :
    reportsOf (deletePhase env gvr l).1 = l.map (reportEvent env gvr) := by
  induction l with
  | nil => rfl
  | cons m rest ih =>
    cases h : env.deleteResult (targetOf gvr m) m.name with
    | error e =>
      simp only [deletePhase, h, List.map_cons]
      rw [reportsOf_append, ih]
      simp [reportsOf, reportEvent, h, List.filterMap_cons]
    | ok u =>
      simp only [deletePhase, h, List.map_cons]
      rw [reportsOf_append, ih]
      simp [reportsOf, reportEvent, h, List.filterMap_cons]

theorem deletePhase_readCount (env : Env) (gvr : String) (l : List ResourceRef) :
    readCount (deletePhase env gvr l).1 = 0 := by
  induction l with
  | nil => rfl
  | cons m rest ih =>
    cases h : env.deleteResult (targetOf gvr m) m.name with
    | error e => simp [deletePhase, readCount, h, List.filter_cons] at ih ⊢; exact ih
    | ok u => simp [deletePhase, readCount, h, List.filter_cons] at ih ⊢; exact ih

theorem presentEvents_calls (r : String) (ms : List ResourceRef) :
    deleteCalls (presentEvents r ms) = [] := by
  simp only [presentEvents, deleteCalls, List.filterMap_cons, List.filterMap_map]
  simp [Function.comp]

theorem presentEvents_reports (r : String) (ms : List ResourceRef) :
    reportsOf (presentEvents r ms) = [] := by
  simp only [presentEvents, reportsOf, List.filterMap_cons, List.filterMap_map]
  simp [Function.comp]

theorem presentEvents_readCount (r : String) (ms : List ResourceRef) :
    readCount (presentEvents r ms) = 0 := by
  simp only [presentEvents, readCount, List.filter_cons, List.filter_map]
  simp [Function.comp]

theorem presentEvents_askCount (r : String) (ms : List ResourceRef) :
    askCount (presentEvents r ms) = 0 := by
  simp only [presentEvents, askCount, List.filter_cons, List.filter_map]
  simp [Function.comp]

theorem presentEvents_summaries (r : String) (ms : List ResourceRef) :
    summariesOf (presentEvents r ms) = [] := by
  simp only [presentEvents, summariesOf, List.filterMap_cons, List.filterMap_map]
  simp [Function.comp]

/-! ## Claims -/

/-- Claim C6: the Selector retains exactly the items whose name matches
the compiled pattern — it is literally the listing filtered in place on
the name, so listing order is preserved and nothing is deduplicated
(sublist of the listing, membership governed by the name test alone),
and only the name is consulted: rewriting every namespace pointwise
commutes with selection. -/
theorem C6_selector_filters_by_name (re : String → Bool) (items : List ResourceRef) :
    selectMatches re items = items.filter (fun r => re r.name)
    ∧ List.Sublist (selectMatches re items) items
    ∧ (∀ r : ResourceRef, r ∈ selectMatches re items ↔ r ∈ items ∧ re r.name = true)
    ∧ (∀ g : ResourceRef → String,
        selectMatches re (items.map (fun r => ⟨g r, r.name⟩))
          = (selectMatches re items).map (fun r => ⟨g r, r.name⟩)) := by
  refine ⟨selectMatches_eq_filter re items, ?_, ?_, ?_⟩
  · rw [selectMatches_eq_filter]
    exact List.filter_sublist items
  · intro r
    rw [selectMatches_eq_filter]
    simp [List.mem_filter]
  · intro g
    rw [selectMatches_eq_filter, selectMatches_eq_filter]
    induction items with
    | nil => rfl
    | cons x xs ih =>
      simp only [List.map_cons, List.filter_cons]
      cases h : re x.name with
      | true => simp [h, ih]
      | false => simp [h, ih]

/-- Claim C7: selecting with the empty pattern (whose engine behaviour,
modelled from the spec, satisfies every name) yields a MatchSet equal to
the full listing. -/
theorem C7_empty_pattern_selects_all (items : List ResourceRef) :
    selectMatches (fun nm => emptyPatternMatchString nm) items = items := by
  rw [selectMatches_eq_filter]
  simp [emptyPatternMatchString]

/-- Claim C4: in the deletion phase each matched item is addressed
through an accessor re-resolved from that item's own namespace — exactly
one delete call per item, in order, routed to the un-namespaced
(cluster-scoped) accessor when the item's namespace is empty and to an
accessor scoped to exactly that namespace otherwise. -/
theorem C4_per_item_rescoping (env : Env) (gvr : String) (matched : List ResourceRef) :
    deleteCalls (deletePhase env gvr matched).1
      = matched.map (fun m => (targetOf gvr m, m.name))
    ∧ (∀ m : ResourceRef,
        targetOf gvr m
          = if m.ns = "" then Accessor.unscoped gvr else Accessor.namespaced gvr m.ns) := by
  refine ⟨deletePhase_calls env gvr matched, ?_⟩
  intro m
  by_cases h : m.ns = ""
  · simp [targetOf, h]
  · simp [targetOf, h]

/-- Claim C10: the per-item delete report lines render the item as
"namespace/name" unconditionally, so an item with an empty namespace is
reported with a leading slash ("Deleted /name" and
"Failed to delete /name: err"), while the earlier presentation line for
the same item omits the namespace and the slash. -/
theorem C10_report_lines_leading_slash (nm e : String) :
    deletedLine ⟨"", nm⟩ = "Deleted /" ++ nm
    ∧ failedLine ⟨"", nm⟩ e = "Failed to delete /" ++ (nm ++ (": " ++ e))
    ∧ presentLine ⟨"", nm⟩ = "  " ++ nm := by
  refine ⟨?_, ?_, ?_⟩
  · show "Deleted " ++ ("" ++ ("/" ++ nm)) = "Deleted /" ++ nm
    rw [String.empty_append, ← String.append_assoc]
    exact congrArg (fun s => s ++ nm) (by decide)
  · show "Failed to delete " ++ ("" ++ ("/" ++ (nm ++ (": " ++ e))))
        = "Failed to delete /" ++ (nm ++ (": " ++ e))
    rw [String.empty_append, ← String.append_assoc]
    exact congrArg (fun s => s ++ (nm ++ (": " ++ e))) (by decide)
  · simp [presentLine]

/-- Claim C3: scope resolution — a resource type resolving to "nodes" or
"namespaces" always yields the cluster-scoped (un-namespaced) accessor,
regardless of the all-namespaces flag and the ambient namespace; any
other resolved type yields the un-namespaced (all-namespaces) accessor
when the flag is set and the accessor scoped to the single ambient
namespace when it is not. -/
theorem C3_scope_resolution (env : Env) (resource resolved ns : String)
    (h1 : env.toRESTConfig = .ok ()) (h2 : env.newForConfig = .ok ())
    (h3 : env.toRESTMapper = .ok ())
    (h4 : env.resourceFor resource = .ok resolved)
    (h5 : env.namespaceOf = .ok ns) :
    ((resolved = "nodes" ∨ resolved = "namespaces") →
      BuildResourceInterface env resource = .ok (Accessor.unscoped resolved))
    ∧ (resolved ≠ "nodes" → resolved ≠ "namespaces" →
        BuildResourceInterface env resource
          = .ok (if env.allNamespaces = true then Accessor.unscoped resolved
              else Accessor.namespaced resolved ns)) := by
  constructor
  · intro h
    rcases h with h | h <;> simp [BuildResourceInterface, h1, h2, h3, h4, h5, h]
  · intro ha hb
    cases hA : env.allNamespaces <;>
      simp [BuildResourceInterface, h1, h2, h3, h4, h5, ha, hb, hA]

/-- Witness for C3 at a concrete input: the mapper of `testEnvNodes`
resolves "pods" to "nodes", the flag is irrelevant, and the resolver
yields the cluster-scoped accessor. -/
theorem C3_scope_resolution_witness :
    testEnvNodes.toRESTConfig = .ok () ∧ testEnvNodes.resourceFor "pods" = .ok "nodes"
    ∧ (("nodes" = "nodes" ∨ "nodes" = "namespaces") →
        BuildResourceInterface testEnvNodes "pods" = .ok (Accessor.unscoped "nodes")) := by
  refine ⟨rfl, rfl, ?_⟩
  exact (C3_scope_resolution testEnvNodes "pods" "nodes" "foo" rfl rfl rfl rfl rfl).1

/-- Claim C5 (recording the code bug): an uncompilable pattern makes
`runCmd` panic (a crash) before any API call, instead of returning the
reported InvalidPattern error the spec requires — at the concrete
failing input, pattern "[", the run ends in the crashed outcome with an
empty trace, not in an errored outcome. -/
theorem C5_invalid_pattern_crashes :
    runCmd testEnv "pods" (some "[") "delete"
      = ⟨[], 0, 0, RunOutcome.crashed "["⟩ := by
  rfl

theorem deletePhase_askCount (env : Env) (gvr : String) (l : List ResourceRef) :
    askCount (deletePhase env gvr l).1 = 0 := by
  induction l with
  | nil => rfl
  | cons m rest ih =>
    cases h : env.deleteResult (targetOf gvr m) m.name with
    | error e => simp [deletePhase, askCount, h, List.filter_cons] at ih ⊢; exact ih
    | ok u => simp [deletePhase, askCount, h, List.filter_cons] at ih ⊢; exact ih

theorem afterConfirm_readCount (env : Env) (resource : String)
    (matched : List ResourceRef) :
    readCount (afterConfirm env resource matched).events = 0 := by
  cases h : rebuild env resource with
  | error e => simp [afterConfirm, h, readCount]
  | ok gvr =>
    simp only [afterConfirm, h]
    rw [readCount_append, deletePhase_readCount]
    rfl

theorem afterConfirm_askCount (env : Env) (resource : String)
    (matched : List ResourceRef) :
    askCount (afterConfirm env resource matched).events = 0 := by
  cases h : rebuild env resource with
  | error e => simp [afterConfirm, h, askCount]
  | ok gvr =>
    simp only [afterConfirm, h]
    rw [askCount_append, deletePhase_askCount]
    rfl

/-- Once the matched set is non-empty and confirmation is skipped or
answered affirmatively, the delete flow continues exactly as
`afterConfirm`, after the presentation (and, when prompted, the one
prompt-and-read pair). -/
theorem deleteFlow_confirmed (env : Env) (resource : String)
    (matched : List ResourceRef) (hne : matched ≠ [])
    (hy : env.autoYes = true ∨ goToLower env.confirmInput = "y") :
    (deleteFlow env resource matched).events
      = presentEvents resource matched
        ++ ((if env.autoYes = true then []
            else [Event.confirmAsk (promptLine matched.length), Event.readIn])
        ++ (afterConfirm env resource matched).events)
    ∧ (deleteFlow env resource matched).deleted
        = (afterConfirm env resource matched).deleted
    ∧ (deleteFlow env resource matched).failed
        = (afterConfirm env resource matched).failed
    ∧ (deleteFlow env resource matched).outcome
        = (afterConfirm env resource matched).outcome := by
  cases hA : env.autoYes with
  | true => simp [deleteFlow, hne, hA]
  | false =>
    have hy2 : goToLower env.confirmInput = "y" := by
      rcases hy with h | h
      · rw [hA] at h; cases h
      · exact h
    simp [deleteFlow, hne, hA, hy2]

/-- Reduction of `runCmd` to the delete flow once the pattern compiles,
the accessor builds, and the listing succeeds. -/
theorem runCmd_delete_eq (env : Env) (resource : String) (pArg : Option String)
    (re : String → Bool) (ri : Accessor) (items : List ResourceRef)
    (hc : env.compile (pArg.getD "") = some re)
    (hb : BuildResourceInterface env resource = .ok ri)
    (hl : env.list ri = .ok items) :
    runCmd env resource pArg "delete"
      = deleteFlow env resource (selectMatches re items) := by
  simp [runCmd, hc, hb, hl]

/-- Claim C1: with a non-empty MatchSet and the confirmation prompt not
skipped, the delete flow prompts exactly once (one prompt write and one
input read); any input whose lowercase form is not "y" terminates with
the "Aborted." report, no delete call and an all-zero outcome ending in
success, while an input lowering to "y" proceeds to the deletion phase
(the run continues exactly as `afterConfirm`). -/
theorem C1_confirmation_gate (env : Env) (resource : String)
    (matched : List ResourceRef)
    (hne : matched ≠ []) (hA : env.autoYes = false) :
    readCount (deleteFlow env resource matched).events = 1
    ∧ askCount (deleteFlow env resource matched).events = 1
    ∧ (goToLower env.confirmInput ≠ "y" →
        deleteFlow env resource matched
          = ⟨presentEvents resource matched
              ++ [Event.confirmAsk (promptLine matched.length), Event.readIn,
                  Event.abortedMsg], 0, 0, RunOutcome.ok⟩
        ∧ deleteCalls (deleteFlow env resource matched).events = [])
    ∧ (goToLower env.confirmInput = "y" →
        deleteFlow env resource matched
          = ⟨presentEvents resource matched
              ++ ([Event.confirmAsk (promptLine matched.length), Event.readIn]
              ++ (afterConfirm env resource matched).events),
             (afterConfirm env resource matched).deleted,
             (afterConfirm env resource matched).failed,
             (afterConfirm env resource matched).outcome⟩) := by
  by_cases hy : goToLower env.confirmInput = "y"
  · have hflow : deleteFlow env resource matched
        = ⟨presentEvents resource matched
            ++ ([Event.confirmAsk (promptLine matched.length), Event.readIn]
            ++ (afterConfirm env resource matched).events),
           (afterConfirm env resource matched).deleted,
           (afterConfirm env resource matched).failed,
           (afterConfirm env resource matched).outcome⟩ := by
      simp [deleteFlow, hne, hA, hy]
    refine ⟨?_, ?_, fun hcon => absurd hy hcon, fun _ => hflow⟩
    · rw [hflow]
      simp only [readCount_append, presentEvents_readCount, afterConfirm_readCount]
      rfl
    · rw [hflow]
      simp only [askCount_append, presentEvents_askCount, afterConfirm_askCount]
      rfl
  · have hflow : deleteFlow env resource matched
        = ⟨presentEvents resource matched
            ++ [Event.confirmAsk (promptLine matched.length), Event.readIn,
                Event.abortedMsg], 0, 0, RunOutcome.ok⟩ := by
      simp [deleteFlow, hne, hA, hy]
    refine ⟨?_, ?_, fun _ => ⟨hflow, ?_⟩, fun hcon => absurd hcon hy⟩
    · rw [hflow]
      simp only [readCount_append, presentEvents_readCount]
      rfl
    · rw [hflow]
      simp only [askCount_append, presentEvents_askCount]
      rfl
    · rw [hflow]
      simp only [deleteCalls_append, presentEvents_calls]
      rfl

/-- Witness for C1 at a concrete input: one matched item, prompting
enabled, confirmation input "n" — the run prompts once, aborts, issues
no delete call, and ends all-zero and successful. -/
theorem C1_confirmation_gate_witness :
    ([(⟨"foo", "app-a"⟩ : ResourceRef)] ≠ ([] : List ResourceRef))
    ∧ testEnv.autoYes = false
    ∧ readCount (deleteFlow testEnv "configmaps" [⟨"foo", "app-a"⟩]).events = 1
    ∧ askCount (deleteFlow testEnv "configmaps" [⟨"foo", "app-a"⟩]).events = 1
    ∧ (goToLower testEnv.confirmInput ≠ "y" →
        deleteFlow testEnv "configmaps" [⟨"foo", "app-a"⟩]
          = ⟨presentEvents "configmaps" [⟨"foo", "app-a"⟩]
              ++ [Event.confirmAsk (promptLine (List.length [(⟨"foo", "app-a"⟩ : ResourceRef)])),
                  Event.readIn, Event.abortedMsg], 0, 0, RunOutcome.ok⟩
        ∧ deleteCalls (deleteFlow testEnv "configmaps" [⟨"foo", "app-a"⟩]).events = []) := by
  refine ⟨by decide, rfl, ?_⟩
  have h := C1_confirmation_gate testEnv "configmaps" [⟨"foo", "app-a"⟩] (by decide) rfl
  exact ⟨h.1, h.2.1, h.2.2.1⟩

/-- Claim C8: a delete invocation whose MatchSet is empty reports that no
resources matched, ends in success with no prompt, no input read, and no
delete call. -/
theorem C8_empty_matchset (env : Env) (resource : String) (pArg : Option String)
    (re : String → Bool) (ri : Accessor) (items : List ResourceRef)
    (hc : env.compile (pArg.getD "") = some re)
    (hb : BuildResourceInterface env resource = .ok ri)
    (hl : env.list ri = .ok items)
    (hm : selectMatches re items = []) :
    runCmd env resource pArg "delete" = ⟨[Event.noMatchMsg], 0, 0, RunOutcome.ok⟩
    ∧ readCount (runCmd env resource pArg "delete").events = 0
    ∧ askCount (runCmd env resource pArg "delete").events = 0
    ∧ deleteCalls (runCmd env resource pArg "delete").events = [] := by
  have hrun : runCmd env resource pArg "delete"
      = ⟨[Event.noMatchMsg], 0, 0, RunOutcome.ok⟩ := by
    rw [runCmd_delete_eq env resource pArg re ri items hc hb hl, hm]
    simp [deleteFlow]
  exact ⟨hrun, by rw [hrun]; rfl, by rw [hrun]; rfl, by rw [hrun]; rfl⟩

/-- Witness for C8 at a concrete input: the pattern "zzz" compiles but
matches nothing in the test listing, and the delete invocation reports
no matches, prompts for nothing, and deletes nothing. -/
theorem C8_empty_matchset_witness :
    testEnv.compile ((some "zzz").getD "") = some (testMatch "zzz")
    ∧ selectMatches (testMatch "zzz") testItems = []
    ∧ runCmd testEnv "configmaps" (some "zzz") "delete"
        = ⟨[Event.noMatchMsg], 0, 0, RunOutcome.ok⟩
    ∧ readCount (runCmd testEnv "configmaps" (some "zzz") "delete").events = 0
    ∧ deleteCalls (runCmd testEnv "configmaps" (some "zzz") "delete").events = [] := by
  have h := C8_empty_matchset testEnv "configmaps" (some "zzz") (testMatch "zzz")
    (Accessor.namespaced "configmaps" "foo") testItems rfl rfl rfl (by decide)
  exact ⟨rfl, by decide, h.1, h.2.1, h.2.2.2⟩

/-- Claim C9: when confirmation succeeds (or is skipped) but the rebuild
of the client configuration, dynamic client, mapper or resource
re-resolution fails, the command returns that error with no delete call
issued, zero counters, and no summary line. -/
theorem C9_rebuild_failure (env : Env) (resource : String) (pArg : Option String)
    (re : String → Bool) (ri : Accessor) (items : List ResourceRef) (e : String)
    (hc : env.compile (pArg.getD "") = some re)
    (hb : BuildResourceInterface env resource = .ok ri)
    (hl : env.list ri = .ok items)
    (hne : selectMatches re items ≠ [])
    (hy : env.autoYes = true ∨ goToLower env.confirmInput = "y")
    (hr : rebuild env resource = .error e) :
    (runCmd env resource pArg "delete").outcome = RunOutcome.errored e
    ∧ deleteCalls (runCmd env resource pArg "delete").events = []
    ∧ (runCmd env resource pArg "delete").deleted = 0
    ∧ (runCmd env resource pArg "delete").failed = 0
    ∧ summariesOf (runCmd env resource pArg "delete").events = [] := by
  have hflow := runCmd_delete_eq env resource pArg re ri items hc hb hl
  obtain ⟨hEv, hDel, hFail, hOut⟩ :=
    deleteFlow_confirmed env resource (selectMatches re items) hne hy
  have hAc : afterConfirm env resource (selectMatches re items)
      = ⟨[], 0, 0, RunOutcome.errored e⟩ := by
    simp [afterConfirm, hr]
  refine ⟨?_, ?_, ?_, ?_, ?_⟩
  · rw [hflow, hOut, hAc]
  · rw [hflow, hEv, hAc]
    simp only [deleteCalls_append, presentEvents_calls]
    cases env.autoYes <;> rfl
  · rw [hflow, hDel, hAc]
  · rw [hflow, hFail, hAc]
  · rw [hflow, hEv, hAc]
    simp only [summariesOf_append, presentEvents_summaries]
    cases env.autoYes <;> rfl

/-- Witness for C9 at a concrete input: confirmation is answered "y" but
the rebuilt REST config fails; the command returns that error having
attempted nothing and printed no summary. -/
theorem C9_rebuild_failure_witness :
    rebuild testEnvRebuildFail "configmaps" = .error "rebuild-down"
    ∧ selectMatches (testMatch "app") testItems ≠ []
    ∧ (runCmd testEnvRebuildFail "configmaps" (some "app") "delete").outcome
        = RunOutcome.errored "rebuild-down"
    ∧ deleteCalls (runCmd testEnvRebuildFail "configmaps" (some "app") "delete").events = []
    ∧ (runCmd testEnvRebuildFail "configmaps" (some "app") "delete").deleted = 0
    ∧ summariesOf (runCmd testEnvRebuildFail "configmaps" (some "app") "delete").events
        = [] := by
  have h := C9_rebuild_failure testEnvRebuildFail "configmaps" (some "app")
    (testMatch "app") (Accessor.namespaced "configmaps" "foo") testItems "rebuild-down"
    rfl rfl rfl (by decide) (Or.inr (by decide)) rfl
  exact ⟨rfl, by decide, h.1, h.2.1, h.2.2.1, h.2.2.2.2⟩

/-- Claim C2: a delete run that enters the deletion phase attempts every
matched item exactly once, in MatchSet order (the delete calls are in
bijective, order-preserving correspondence with the matched items), each
item is reported individually in that order, the final outcome counts
deletedCount = N - K and failedCount = K where K is the number of failing
per-item deletes, and the command still ends in the success outcome. -/
theorem C2_partial_failure (env : Env) (resource : String) (pArg : Option String)
    (re : String → Bool) (ri : Accessor) (items : List ResourceRef) (gvr : String)
    (hc : env.compile (pArg.getD "") = some re)
    (hb : BuildResourceInterface env resource = .ok ri)
    (hl : env.list ri = .ok items)
    (hne : selectMatches re items ≠ [])
    (hy : env.autoYes = true ∨ goToLower env.confirmInput = "y")
    (hr : rebuild env resource = .ok gvr) :
    (runCmd env resource pArg "delete").deleted
      = (selectMatches re items).length
        - ((selectMatches re items).filter (deleteFails env gvr)).length
    ∧ (runCmd env resource pArg "delete").failed
        = ((selectMatches re items).filter (deleteFails env gvr)).length
    ∧ (runCmd env resource pArg "delete").outcome = RunOutcome.ok
    ∧ deleteCalls (runCmd env resource pArg "delete").events
        = (selectMatches re items).map (fun m => (targetOf gvr m, m.name))
    ∧ reportsOf (runCmd env resource pArg "delete").events
        = (selectMatches re items).map (reportEvent env gvr) := by
  have hflow := runCmd_delete_eq env resource pArg re ri items hc hb hl
  obtain ⟨hEv, hDel, hFail, hOut⟩ :=
    deleteFlow_confirmed env resource (selectMatches re items) hne hy
  have hAc : afterConfirm env resource (selectMatches re items)
      = ⟨(deletePhase env gvr (selectMatches re items)).1
          ++ [Event.summaryMsg
            (summaryLine (deletePhase env gvr (selectMatches re items)).2.1
              (deletePhase env gvr (selectMatches re items)).2.2)],
         (deletePhase env gvr (selectMatches re items)).2.1,
         (deletePhase env gvr (selectMatches re items)).2.2, RunOutcome.ok⟩ := by
    simp [afterConfirm, hr]
  refine ⟨?_, ?_, ?_, ?_, ?_⟩
  · rw [hflow, hDel, hAc]
    exact deletePhase_deleted env gvr (selectMatches re items)
  · rw [hflow, hFail, hAc]
    exact deletePhase_failed env gvr (selectMatches re items)
  · rw [hflow, hOut, hAc]
  · rw [hflow, hEv, hAc]
    simp only [deleteCalls_append, presentEvents_calls,
      deletePhase_calls env gvr (selectMatches re items)]
    cases env.autoYes <;> simp [deleteCalls]
  · rw [hflow, hEv, hAc]
    simp only [reportsOf_append, presentEvents_reports,
      deletePhase_reports env gvr (selectMatches re items)]
    cases env.autoYes <;> simp [reportsOf]

/-- Witness for C2 at a concrete input: pattern "app" matches two
namespaced items, confirmation input "Y" proceeds, the delete of
"app-b" fails — the run deletes one, fails one, attempts both in order,
reports both, and ends successfully. -/
theorem C2_partial_failure_witness :
    selectMatches (testMatch "app") testItems ≠ []
    ∧ rebuild testEnvYes "configmaps" = .ok "configmaps"
    ∧ (runCmd testEnvYes "configmaps" (some "app") "delete").deleted
        = (selectMatches (testMatch "app") testItems).length
          - ((selectMatches (testMatch "app") testItems).filter
              (deleteFails testEnvYes "configmaps")).length
    ∧ (runCmd testEnvYes "configmaps" (some "app") "delete").failed
        = ((selectMatches (testMatch "app") testItems).filter
            (deleteFails testEnvYes "configmaps")).length
    ∧ (runCmd testEnvYes "configmaps" (some "app") "delete").outcome = RunOutcome.ok
    ∧ deleteCalls (runCmd testEnvYes "configmaps" (some "app") "delete").events
        = (selectMatches (testMatch "app") testItems).map
            (fun m => (targetOf "configmaps" m, m.name))
    ∧ reportsOf (runCmd testEnvYes "configmaps" (some "app") "delete").events
        = (selectMatches (testMatch "app") testItems).map
            (reportEvent testEnvYes "configmaps") := by
  have h := C2_partial_failure testEnvYes "configmaps" (some "app") (testMatch "app")
    (Accessor.namespaced "configmaps" "foo") testItems "configmaps"
    rfl rfl rfl (by decide) (Or.inr (by decide)) rfl
  exact ⟨by decide, rfl, h.1, h.2.1, h.2.2.1, h.2.2.2.1, h.2.2.2.2⟩
